import Mathlib

/-!
Verification development for the lidl-slovenia-cli stock-resolution pipeline
(src/index.js). The JavaScript program is shallowly embedded: every function
below mirrors one source function, JS runtime values that matter to the
pipeline (store identifiers may be JSON numbers or strings) are modelled by
`JsVal`, thrown JS exceptions by `Except`, `process.exit` by a distinguished
`Failure.exit` outcome, and external effects (the store-directory HTTP fetch,
the stock HTTP fetch, the headless-browser page session, the cache file, the
interactive answers) by explicit environment records threaded through the
control flow exactly as the source sequences them.
-/

/-- A JavaScript primitive value as it appears in the JSON payloads: a string,
a number, or null. JS strict equality `===` between a string and a number is
always false, which structural equality on this type reproduces. -/
inductive JsVal where
  | str (s : String)
  | num (n : Int)
  | null
deriving DecidableEq, Repr

/-- JS strict equality `===` restricted to the primitive values above: true
exactly when the two operands have the same runtime type and the same value. -/
def jsStrictEq : JsVal → JsVal → Bool
  | JsVal.str a, JsVal.str b => a = b
  | JsVal.num a, JsVal.num b => a = b
  | JsVal.null, JsVal.null => true
  | _, _ => false

/-- JS truthiness of a possibly-absent string: `undefined`/`null` and the
empty string are falsy, every other string is truthy. -/
def truthyOpt : Option String → Bool
  | none => false
  | some s => s ≠ ""

/-- JS `a || b` on possibly-absent strings: `a` when truthy, otherwise `b`. -/
def jsOr (a b : Option String) : Option String :=
  if truthyOpt a then a else b

/-- String rendering of a `JsVal`, used for the comma-joined store-id list. -/
def jsValToString : JsVal → String
  | JsVal.str s => s
  | JsVal.num n => toString n
  | JsVal.null => "null"

/-- JS `s.includes(sub)`: `sub` occurs in `s` as a contiguous substring. -/
def strIncludes (s sub : String) : Bool :=
  decide (sub.toList <:+: s.toList)

/-- A JS exception: a plain `Error` with its message, or the `TypeError` the
runtime raises on property access through `null`/`undefined`. -/
inductive JsError where
  | error (msg : String)
  | typeError (msg : String)
deriving DecidableEq, Repr

/-- An abnormal end of a control path: `process.exit(code)`, or a JS exception
that propagates out of the modelled scope with no handler. -/
inductive Failure where
  | exit (code : Nat)
  | jsErr (e : JsError)
deriving DecidableEq, Repr

/-- A raw store record of the store-directory response (`data.d.results[i]`).
`infoIcons` lists the values of the fields `INFOICON1` .. `INFOICON41` in
order: `none` models an absent (`undefined`) field. -/
structure RawStore where
  EntityID : JsVal
  AddressLine : String
  PostalCode : String
  Locality : String
  Latitude : JsVal
  Longitude : JsVal
  infoIcons : List (Option String)
deriving DecidableEq, Repr

/-- Value of the field `INFOICON<i>` of a raw record (absent beyond the list). -/
def iconAt (location : RawStore) (i : Nat) : Option String :=
  location.infoIcons.getD (i - 1) none

/-- The static amenity code-to-label table `icon_cypher` (src/index.js:18-25). -/
def icon_cypher : List (String × String) :=
  [("eCharger", "Electric Car Charger"),
   ("hotDrinks", "Hot Drinks"),
   ("garage", "Parking Garage"),
   ("freeWiFi", "Free Wi-Fi"),
   ("parking", "Parking"),
   ("disParking", "Disabled Parking")]

/-- A value pushed onto a services list. The lookup `icon_cypher[code]` is a
plain JS property read, so besides the table's own string labels it can yield
values inherited from `Object.prototype`: one of its function-valued
properties, or `Object.prototype` itself through the inherited `__proto__`
accessor. `null` and the empty object arise only from a JSON round trip of
those two inherited forms. -/
inductive ServiceVal where
  | str (s : String)
  | protoFn (name : String)
  | protoObj
  | null
  | emptyObj
deriving DecidableEq, Repr

/-- The function-valued properties every object literal inherits from
`Object.prototype`. -/
def protoFnKeys : List String :=
  ["constructor", "hasOwnProperty", "isPrototypeOf", "propertyIsEnumerable",
   "toLocaleString", "toString", "valueOf",
   "__defineGetter__", "__defineSetter__", "__lookupGetter__", "__lookupSetter__"]

/-- JS truthiness of a service value: functions and objects are truthy, the
empty string and `null` are falsy. -/
def truthyService : ServiceVal → Bool
  | ServiceVal.str s => s ≠ ""
  | ServiceVal.protoFn _ => true
  | ServiceVal.protoObj => true
  | ServiceVal.null => false
  | ServiceVal.emptyObj => true

/-- The property read `icon_cypher[code]` (src/index.js:40): an own key of the
object literal yields its string label; any other key falls through to
`Object.prototype`, yielding the inherited function for its method names and
`Object.prototype` itself for `__proto__`; every remaining key reads as
`undefined`. -/
def lookupIcon (code : String) : Option ServiceVal :=
  match (icon_cypher.find? fun p => p.fst = code).map Prod.snd with
  | some label => some (ServiceVal.str label)
  | none =>
    if code ∈ protoFnKeys then some (ServiceVal.protoFn code)
    else if code = "__proto__" then some ServiceVal.protoObj
    else none

/-- The value pushed for one truthy icon code (src/index.js:40-42): the result
of the property read when truthy, otherwise the raw code itself. -/
def serviceFor (code : String) : ServiceVal :=
  match lookupIcon code with
  | some v => if truthyService v then v else ServiceVal.str code
  | none => ServiceVal.str code

/-- Embedding of `parseServices` (src/index.js:35-46): scan `INFOICON1` ..
`INFOICON41` in order and, for each truthy code, push the value that
`serviceFor` describes (table label, inherited prototype value, or the raw
code). -/
def parseServices (location : RawStore) : List ServiceVal :=
  ((List.range 41).map fun i => iconAt location (i + 1)).filterMap fun o =>
    match o with
    | some c => if c = "" then none else some (serviceFor c)
    | none => none

/-- The truthy icon codes of a raw record, in scan order: the codes
`parseServices` maps. -/
def presentCodes (location : RawStore) : List String :=
  ((List.range 41).map fun i => iconAt location (i + 1)).filterMap fun o =>
    match o with
    | some c => if c = "" then none else some c
    | none => none

/-- A cached store record as built at src/index.js:67-74 and persisted in
`stores.json`. -/
structure Store where
  id : JsVal
  address : String
  postalCode : String
  latitude : JsVal
  longitude : JsVal
  services : List ServiceVal
deriving DecidableEq, Repr

/-- The per-entry transformation of the store-directory refresh
(src/index.js:67-74). -/
def transformStore (s : RawStore) : Store :=
  { id := s.EntityID
    address := s.AddressLine ++ ", " ++ s.PostalCode ++ " " ++ s.Locality
    postalCode := s.PostalCode
    latitude := s.Latitude
    longitude := s.Longitude
    services := parseServices s }

/-- Effect of one `JSON.stringify`/`JSON.parse` round trip on a services
entry: strings are preserved, an inherited function serializes as `null`, and
`Object.prototype` serializes as an empty object; the two JSON forms are
fixed points. -/
def jsonRoundTripService : ServiceVal → ServiceVal
  | ServiceVal.str s => ServiceVal.str s
  | ServiceVal.protoFn _ => ServiceVal.null
  | ServiceVal.protoObj => ServiceVal.emptyObj
  | ServiceVal.null => ServiceVal.null
  | ServiceVal.emptyObj => ServiceVal.emptyObj

/-- Effect of the persist/parse round trip on one cached store record: every
field but `services` is JSON-safe and survives unchanged. -/
def jsonRoundTripStore (s : Store) : Store :=
  { s with services := s.services.map jsonRoundTripService }

/-- The store-directory HTTP response: `ok` is `response.ok`; `body` is the
outcome of `response.json()` followed by the `data.d.results` access — an
exception message when parsing fails or the envelope lacks that shape. -/
structure StoresResponse where
  ok : Bool
  body : Except String (List RawStore)

/-- Environment of one store-directory refresh: the two environment variables
(`undefined` modelled as `none`) and the result of the single `fetch` call
(`Except.error` when the network call itself throws). -/
structure StoreEnv where
  mapsHost : Option String
  mapsApiKey : Option String
  fetchResult : Except String StoresResponse

/-- Embedding of `fetchLidlStores` (src/index.js:48-77) together with its
effect on the cache file (second component). The cache file is modelled at the
JSON-value level as `Option (List Store)`:
`writeFileSync(JSON.stringify(stores))` persists the JSON image of the list,
in which a prototype-inherited service value has degraded to `null` or to an
empty object (`jsonRoundTripStore`), and a later parse returns exactly that
image. Missing configuration, a throwing `fetch`, and a non-ok status all
reach `process.exit(1)`; a failing `response.json()`/envelope access throws
with no handler in scope. -/
def fetchLidlStores (env : StoreEnv) (file : Option (List Store)) :
    Except Failure (List Store) × Option (List Store) :=
  if truthyOpt env.mapsHost = false ∨ truthyOpt env.mapsApiKey = false then
    (Except.error (Failure.exit 1), file)
  else
    match env.fetchResult with
    | Except.error _ => (Except.error (Failure.exit 1), file)
    | Except.ok resp =>
      if resp.ok = false then (Except.error (Failure.exit 1), file)
      else
        match resp.body with
        | Except.error msg => (Except.error (Failure.jsErr (JsError.error msg)), file)
        | Except.ok raws =>
          let stores := raws.map transformStore
          (Except.ok stores, some (stores.map jsonRoundTripStore))

/-- Embedding of `loadCachedStores` (src/index.js:79-84): return the parsed
cache content when the file exists, `null` (here `none`) when it does not.
The function never raises. -/
def loadCachedStores (file : Option (List Store)) : Option (List Store) :=
  match file with
  | some content => some content
  | none => none

/-- The postal-code filter applied at src/index.js:194:
`stores.filter(store => store.postalCode.includes(filterPostcode))`. -/
def filterByPostalCode (stores : List Store) (code : String) : List Store :=
  stores.filter fun store => strIncludes store.postalCode code

/-- One entry of the stock-availability response body. -/
structure StockInfo where
  storeId : JsVal
  storeAvailabilityIndicator : String
deriving DecidableEq, Repr

/-- The parsed stock-availability response body: a JSON array of entries, or
any non-array value (`null`, object, ...). -/
inductive StockBody where
  | notArray
  | arr (data : List StockInfo)
deriving DecidableEq

/-- Embedding of `fetchProductAvailability` (src/index.js:86-91): throw
`Error("Failed to fetch product availability")` on a non-ok status, otherwise
return the parsed body. `productId` and `storeIds` only shape the request URL;
the response is supplied by the environment. -/
def fetchProductAvailability (productId : Option String) (storeIds : String)
    (stockOk : Bool) (body : StockBody) : Except JsError StockBody :=
  if stockOk then Except.ok body
  else Except.error (JsError.error "Failed to fetch product availability")

/-- Classification of one raw status string by the `switch` at
src/index.js:111-125; the `default` arm makes it total. -/
inductive StockClass where
  | inStock
  | lowStock
  | unknown
  | notInStock
deriving DecidableEq, Repr

/-- The status dispatch of the stock loop: `AVAILABLE` and `LOW_STOCK` are the
two in-stock arms, `UNKNOWN` its own arm, everything else the default arm. -/
def classifyStatus (status : String) : StockClass :=
  if status = "AVAILABLE" then StockClass.inStock
  else if status = "LOW_STOCK" then StockClass.lowStock
  else if status = "UNKNOWN" then StockClass.unknown
  else StockClass.notInStock

/-- One console line of the stock report (src/index.js:113-124). -/
inductive ReportLine where
  | inStockAt (addr : String)
  | lowStockAt (addr : String)
  | unknownAt (addr : String)
  | notInStockAt (addr : String)
deriving DecidableEq, Repr

/-- One iteration of the stock loop (src/index.js:106-126) over the
accumulated `(inStockStores, printed report lines)`: look the entry's store up
by strict id equality in the active store list; with no match the entry is
skipped entirely; otherwise classify and push/print accordingly. -/
def stockStep (stores : List Store) (acc : List Store × List ReportLine)
    (si : StockInfo) : List Store × List ReportLine :=
  match stores.find? (fun s => jsStrictEq s.id si.storeId) with
  | none => acc
  | some store =>
    match classifyStatus si.storeAvailabilityIndicator with
    | StockClass.inStock => (acc.1 ++ [store], acc.2 ++ [ReportLine.inStockAt store.address])
    | StockClass.lowStock => (acc.1 ++ [store], acc.2 ++ [ReportLine.lowStockAt store.address])
    | StockClass.unknown => (acc.1, acc.2 ++ [ReportLine.unknownAt store.address])
    | StockClass.notInStock => (acc.1, acc.2 ++ [ReportLine.notInStockAt store.address])

/-- The whole stock loop: fold `stockStep` over the response entries. -/
def collectStock (stores : List Store) (data : List StockInfo) :
    List Store × List ReportLine :=
  data.foldl (stockStep stores) ([], [])

/-- Observable outcome of `findInStockStores`: the "no stock data" report, or
the normal report with the in-stock list and the printed lines. -/
inductive StockOutcome where
  | noData
  | report (inStock : List Store) (lines : List ReportLine)
deriving DecidableEq

/-- Embedding of `findInStockStores` (src/index.js:93-129): join the active
store ids, fetch availability (an HTTP failure throws out of this function —
there is no handler here), treat a non-array or empty body as "no stock data",
otherwise run the classification loop. -/
def findInStockStores (productId : Option String) (stockOk : Bool)
    (body : StockBody) (stores : List Store) : Except JsError StockOutcome :=
  let ids := String.intercalate "," ((stores.map Store.id).map jsValToString)
  match fetchProductAvailability productId ids stockOk body with
  | Except.error e => Except.error e
  | Except.ok StockBody.notArray => Except.ok StockOutcome.noData
  | Except.ok (StockBody.arr data) =>
    if data.isEmpty then Except.ok StockOutcome.noData
    else
      let p := collectStock stores data
      Except.ok (StockOutcome.report p.1 p.2)

/-- A variant record as read from the page state; the source probes the four
fields `erpNumber`, `articleId`, `fullTitle`, `productTitle`, any of which may
be absent. -/
structure Variant where
  erpNumber : Option String
  articleId : Option String
  fullTitle : Option String
  productTitle : Option String
deriving DecidableEq, Repr

/-- The value `fetchProductVariants` resolves on success: the id extracted
from the URL, the variants list, and the (possibly null) full title. -/
structure ProductResult where
  productId : String
  variants : List Variant
  fullTitle : Option String
deriving DecidableEq, Repr

/-- Longest run of decimal digits at the head of the character list. -/
def leadingDigits : List Char → List Char
  | [] => []
  | c :: cs => if c.isDigit then c :: leadingDigits cs else []

/-- Numeric value of a digit run. -/
def digitsVal (ds : List Char) : Nat :=
  ds.foldl (fun a c => a * 10 + (c.toNat - 48)) 0

/-- First match of the regex `/p(\d+)/`: scan for a literal `p` immediately
followed by at least one digit and capture the maximal digit run. -/
def matchPDigits : List Char → Option (List Char)
  | [] => none
  | c :: rest =>
    if c = 'p' then
      let ds := leadingDigits rest
      if ds = [] then matchPDigits rest else some ds
    else matchPDigits rest

/-- The product-id extraction `productUrl.match(/p(\d+)/)?.[1]`
(src/index.js:132). -/
def extractProductId (url : String) : Option String :=
  (matchPDigits url.toList).map fun ds => String.mk ds

/-- JS `parseInt`: skip surrounding whitespace, accept an optional sign, read
the leading digit run; `none` models `NaN`. -/
def parseIntJs (s : String) : Option Int :=
  match s.trim.toList with
  | '-' :: rest =>
    let ds := leadingDigits rest
    if ds = [] then none else some (-(digitsVal ds : Int))
  | '+' :: rest =>
    let ds := leadingDigits rest
    if ds = [] then none else some (digitsVal ds : Int)
  | cs =>
    let ds := leadingDigits cs
    if ds = [] then none else some (digitsVal ds : Int)

/-- Outcome of one headless-browser page session for one resolution call:
each field is the result of the corresponding awaited page operation
(`page.goto`, the variants `page.evaluate`, the title `page.evaluate`), any of
which may reject with a JS error. -/
structure PageEnv where
  gotoResult : Except JsError Unit
  variantsEval : Except JsError (List Variant)
  titleEval : Except JsError (Option String)

/-- Whether the browser of one resolution call was launched and whether it was
closed by the time the call returned or threw. -/
structure BrowserTrace where
  launched : Bool
  closed : Bool
deriving DecidableEq, Repr

/-- Embedding of `fetchProductVariants` (src/index.js:131-152) with its
browser-resource trace. With no id match the function returns `null` before
launching anything. Otherwise the browser is launched and the three page
operations run in order; the source has no `try`/`finally`, so a rejection of
any of them propagates immediately and `browser.close()` (line 150) — which
only runs on the all-success path — is skipped. -/
def fetchProductVariants (productUrl : String) (penv : PageEnv) :
    Except JsError (Option ProductResult) × BrowserTrace :=
  match extractProductId productUrl with
  | none => (Except.ok none, { launched := false, closed := false })
  | some pid =>
    match penv.gotoResult with
    | Except.error e => (Except.error e, { launched := true, closed := false })
    | Except.ok _ =>
      match penv.variantsEval with
      | Except.error e => (Except.error e, { launched := true, closed := false })
      | Except.ok variants =>
        match penv.titleEval with
        | Except.error e => (Except.error e, { launched := true, closed := false })
        | Except.ok title =>
          (Except.ok (some { productId := pid, variants := variants, fullTitle := title }),
           { launched := true, closed := true })

/-- The variant-selection step of `productSearchFlow` (src/index.js:165-181):
with a nonempty variants list the typed choice is `parseInt`ed and used as a
1-based index (`none` models the "Invalid selection" early return); with no
variants the synthetic fallback variant is built from the base product id. -/
def selectVariant (r : ProductResult) (choice : String) : Option Variant :=
  if r.variants.length > 0 then
    match parseIntJs choice with
    | none => none
    | some n =>
      if n - 1 < 0 then none
      else r.variants[(n - 1).toNat]?
  else
    some { erpNumber := some r.productId, articleId := some r.productId,
           fullTitle := r.fullTitle, productTitle := none }

/-- Observable outcome of one `productSearchFlow` run that did not throw. -/
inductive FlowOutcome where
  | badProduct
  | invalidSelection
  | noStoresForPostcode
  | stockNoData
  | stockReport (inStock : List Store) (lines : List ReportLine)
deriving DecidableEq

/-- Environment of one `productSearchFlow` run: the resolver outcome for the
typed URL, the typed variant choice, the cache-file content, the postcode
accepted by the validation loop (empty or 4 digits), the store-directory
environment for the refetch branch, and the stock endpoint's response. -/
structure FlowEnv where
  productResult : Except JsError (Option ProductResult)
  variantChoice : String
  cacheFile : Option (List Store)
  postcode : String
  storeEnv : StoreEnv
  stockOk : Bool
  stockBody : StockBody

/-- The part of `productSearchFlow` before the stock check
(src/index.js:154-204), in source order: resolve the product (a resolver
exception propagates — no handler), reject a falsy title, select a variant,
`loadCachedStores`, then — when a postcode was given — filter the loaded list
(a `null` list makes `stores.filter` throw a `TypeError`, since the
absent-cache refetch check only comes at line 201), and only afterwards
refetch when the list is still `null`. Yields either an early outcome or the
`(productId argument, active store list)` handed to the stock check. -/
def flowPrelude (env : FlowEnv) :
    Except Failure (Sum FlowOutcome (Option String × List Store)) :=
  match env.productResult with
  | Except.error e => Except.error (Failure.jsErr e)
  | Except.ok none => Except.ok (Sum.inl FlowOutcome.badProduct)
  | Except.ok (some r) =>
    if truthyOpt r.fullTitle = false then Except.ok (Sum.inl FlowOutcome.badProduct)
    else
      match selectVariant r env.variantChoice with
      | none => Except.ok (Sum.inl FlowOutcome.invalidSelection)
      | some selected =>
        let pid := jsOr selected.erpNumber selected.articleId
        let stores0 := loadCachedStores env.cacheFile
        if env.postcode = "" then
          match stores0 with
          | some l => Except.ok (Sum.inr (pid, l))
          | none =>
            match (fetchLidlStores env.storeEnv env.cacheFile).1 with
            | Except.error f => Except.error f
            | Except.ok l => Except.ok (Sum.inr (pid, l))
        else
          match stores0 with
          | none =>
            Except.error (Failure.jsErr
              (JsError.typeError "Cannot read properties of null (reading filter)"))
          | some l =>
            let l2 := filterByPostalCode l env.postcode
            if l2.isEmpty then Except.ok (Sum.inl FlowOutcome.noStoresForPostcode)
            else Except.ok (Sum.inr (pid, l2))

/-- Embedding of the whole `productSearchFlow` (src/index.js:154-207): the
prelude followed by `findInStockStores`, whose exception — if any — leaves
this function unhandled. -/
def productSearchFlow (env : FlowEnv) : Except Failure FlowOutcome :=
  match flowPrelude env with
  | Except.error f => Except.error f
  | Except.ok (Sum.inl out) => Except.ok out
  | Except.ok (Sum.inr (pid, stores)) =>
    match findInStockStores pid env.stockOk env.stockBody stores with
    | Except.error e => Except.error (Failure.jsErr e)
    | Except.ok StockOutcome.noData => Except.ok FlowOutcome.stockNoData
    | Except.ok (StockOutcome.report l lines) =>
      Except.ok (FlowOutcome.stockReport l lines)

/-- Outcome of one `mainMenu` iteration that did not throw: the tail call
`mainMenu()` at src/index.js:257 runs again, or `process.exit(0)` ended the
process normally. -/
inductive MenuOutcome where
  | loopAgain
  | exited
deriving DecidableEq

/-- One iteration of `mainMenu` (src/index.js:240-258). Option 1 awaits
`productSearchFlow` with no handler: any exception escapes this iteration
(and, the call site at line 260 having no handler either, becomes an
unhandled rejection — the loop is not re-entered). -/
def mainMenuStep (choice : String) (env : FlowEnv) : Except Failure MenuOutcome :=
  if choice = "1" then
    match productSearchFlow env with
    | Except.error f => Except.error f
    | Except.ok _ => Except.ok MenuOutcome.loopAgain
  else if choice = "2" then
    match (fetchLidlStores env.storeEnv env.cacheFile).1 with
    | Except.error f => Except.error f
    | Except.ok _ => Except.ok MenuOutcome.loopAgain
  else Except.ok MenuOutcome.exited

/-- Sample raw store record exercising a mapped code, an absent field, an
unmapped code, and an empty-string field. -/
def rawSample : RawStore :=
  { EntityID := JsVal.num 17
    AddressLine := "Cesta v Mestni log 55"
    PostalCode := "1000"
    Locality := "Ljubljana"
    Latitude := JsVal.num 46
    Longitude := JsVal.num 14
    infoIcons := [some "parking", none, some "mystery", some ""] }

/-- Sample cached store with postal code 1010. -/
def store1010 : Store :=
  { id := JsVal.num 1, address := "A, 1010 Ljubljana", postalCode := "1010",
    latitude := JsVal.null, longitude := JsVal.null, services := [] }

/-- Sample cached store with postal code 1020. -/
def store1020 : Store :=
  { id := JsVal.num 2, address := "B, 1020 Ljubljana", postalCode := "1020",
    latitude := JsVal.null, longitude := JsVal.null, services := [] }

/-- Sample cached store with postal code 2010. -/
def store2010 : Store :=
  { id := JsVal.num 3, address := "C, 2010 Maribor", postalCode := "2010",
    latitude := JsVal.null, longitude := JsVal.null, services := [] }

/-- Sample cached store whose id is the JSON number 123. -/
def storeNum123 : Store :=
  { id := JsVal.num 123, address := "D, 1000 Ljubljana", postalCode := "1000",
    latitude := JsVal.null, longitude := JsVal.null, services := [] }

/-- Sample stock entry whose storeId is the JSON string "123". -/
def si123 : StockInfo :=
  { storeId := JsVal.str "123", storeAvailabilityIndicator := "AVAILABLE" }

/-- Sample resolver outcome with an empty variants list. -/
def prodNoVariants : ProductResult :=
  { productId := "12345", variants := [], fullTitle := some "Sample product" }

/-- Store-directory environment whose single fetch succeeds with one record. -/
def storeEnvOk : StoreEnv :=
  { mapsHost := some "https://maps.example"
    mapsApiKey := some "key"
    fetchResult := Except.ok { ok := true, body := Except.ok [rawSample] } }

/-- Store-directory environment whose single fetch throws a network error. -/
def storeEnvFail : StoreEnv :=
  { mapsHost := some "https://maps.example"
    mapsApiKey := some "key"
    fetchResult := Except.error "network down" }

/-- Sample raw store record whose only icon code names an `Object.prototype`
method. -/
def rawToString : RawStore :=
  { EntityID := JsVal.num 99
    AddressLine := "Dunajska cesta 5"
    PostalCode := "1000"
    Locality := "Ljubljana"
    Latitude := JsVal.num 46
    Longitude := JsVal.num 14
    infoIcons := [some "toString"] }

/-- Store-directory environment whose single fetch succeeds with the
prototype-keyed record. -/
def storeEnvProto : StoreEnv :=
  { mapsHost := some "https://maps.example"
    mapsApiKey := some "key"
    fetchResult := Except.ok { ok := true, body := Except.ok [rawToString] } }

/-- Page session in which every awaited page operation succeeds. -/
def penvAllOk : PageEnv :=
  { gotoResult := Except.ok ()
    variantsEval := Except.ok []
    titleEval := Except.ok (some "Sample product") }

/-- Page session in which `page.goto` rejects. -/
def penvGotoFail : PageEnv :=
  { gotoResult := Except.error (JsError.error "net::ERR_NAME_NOT_RESOLVED")
    variantsEval := Except.ok []
    titleEval := Except.ok none }

/-- Flow run with an absent cache file and the validated postcode 1000. -/
def envAbsentCachePostcode : FlowEnv :=
  { productResult := Except.ok (some prodNoVariants)
    variantChoice := ""
    cacheFile := none
    postcode := "1000"
    storeEnv := storeEnvOk
    stockOk := true
    stockBody := StockBody.arr [] }

/-- Flow run that reaches the stock check and receives a non-ok stock status. -/
def envStockFail : FlowEnv :=
  { productResult := Except.ok (some prodNoVariants)
    variantChoice := ""
    cacheFile := some [storeNum123]
    postcode := ""
    storeEnv := storeEnvOk
    stockOk := false
    stockBody := StockBody.notArray }

/-- Helper: a string label the property read yields comes from the static
table and is nonempty. -/
theorem lookupIcon_str_ne_empty (c n : String)
    (h : lookupIcon c = some (ServiceVal.str n)) : n ≠ "" := by
  unfold lookupIcon at h
  cases hf : icon_cypher.find? fun p => p.fst = c with
  | none =>
    rw [hf] at h
    simp at h
    by_cases h1 : c ∈ protoFnKeys
    · simp [h1] at h
    · by_cases h2 : c = "__proto__"
      · simp [h1, h2] at h
        rw [if_neg (by decide)] at h
        simp at h
      · simp [h1, h2] at h
  | some p =>
    rw [hf] at h
    simp at h
    have hmem := List.mem_of_find?_eq_some hf
    subst h
    simp [icon_cypher] at hmem
    rcases hmem with h1 | h1 | h1 | h1 | h1 | h1 <;> rw [h1] <;> decide

/-- C4: stock-status classification is a total deterministic function of the
raw status string: `AVAILABLE` is the in-stock arm, `LOW_STOCK` the distinct
low-stock arm (both arms push the store onto the in-stock list), `UNKNOWN` its
own arm excluded from the in-stock list, and every other string falls to the
default not-in-stock arm, which also leaves the in-stock list unchanged. -/
theorem classifyStatus_spec :
    classifyStatus "AVAILABLE" = StockClass.inStock
    ∧ classifyStatus "LOW_STOCK" = StockClass.lowStock
    ∧ classifyStatus "UNKNOWN" = StockClass.unknown
    ∧ (∀ s : String, s ≠ "AVAILABLE" → s ≠ "LOW_STOCK" → s ≠ "UNKNOWN" →
        classifyStatus s = StockClass.notInStock)
    ∧ (∀ (stores : List Store) (acc : List Store × List ReportLine)
        (si : StockInfo) (store : Store),
        stores.find? (fun s => jsStrictEq s.id si.storeId) = some store →
        ((classifyStatus si.storeAvailabilityIndicator = StockClass.inStock ∨
          classifyStatus si.storeAvailabilityIndicator = StockClass.lowStock) →
            (stockStep stores acc si).1 = acc.1 ++ [store])
        ∧ (classifyStatus si.storeAvailabilityIndicator = StockClass.unknown →
            (stockStep stores acc si).1 = acc.1)
        ∧ (classifyStatus si.storeAvailabilityIndicator = StockClass.notInStock →
            (stockStep stores acc si).1 = acc.1)) := by
  refine ⟨rfl, rfl, rfl, ?_, ?_⟩
  · intro s h1 h2 h3
    simp [classifyStatus, h1, h2, h3]
  · intro stores acc si store hfind
    refine ⟨?_, ?_, ?_⟩
    · intro h
      rcases h with h | h <;> simp [stockStep, hfind, h]
    · intro h
      simp [stockStep, hfind, h]
    · intro h
      simp [stockStep, hfind, h]

/-- Witness for C4 at the concrete status string of the spec example. -/
theorem classifyStatus_spec_witness :
    classifyStatus "FOOBAR" = StockClass.notInStock :=
  classifyStatus_spec.2.2.2.1 "FOOBAR" (by decide) (by decide) (by decide)

/-- C5: the postal-code filter returns a subsequence of its input (subset in
the original relative order) whose members are exactly the stores whose
postal code contains the given string as a contiguous substring. -/
theorem filterByPostalCode_spec (stores : List Store) (code : String) :
    (filterByPostalCode stores code).Sublist stores
    ∧ ∀ s : Store, s ∈ filterByPostalCode stores code ↔
        s ∈ stores ∧ code.toList <:+: s.postalCode.toList := by
  constructor
  · exact List.filter_sublist stores
  · intro s
    simp [filterByPostalCode, List.mem_filter, strIncludes]

/-- Witness for C5 at the spec's three-store example. -/
theorem filterByPostalCode_spec_witness :
    store1010 ∈ filterByPostalCode [store1010, store1020, store2010] "10" :=
  ((filterByPostalCode_spec [store1010, store1020, store2010] "10").2 store1010).mpr
    ⟨by simp, by decide⟩

/-- C10: the stock loop matches an entry to a cached store with JS strict
equality on identifiers; an entry whose storeId matches no cached store id
(in particular a string id against a numerically equal number id, as
`jsStrictEq (num 123) (str "123") = false` states) leaves both the in-stock
accumulator and the printed report lines unchanged. -/
theorem stock_lookup_strict (stores : List Store) (acc : List Store × List ReportLine)
    (si : StockInfo) (h : ∀ s ∈ stores, jsStrictEq s.id si.storeId = false) :
    stockStep stores acc si = acc
    ∧ jsStrictEq (JsVal.num 123) (JsVal.str "123") = false := by
  constructor
  · have hfind : stores.find? (fun s => jsStrictEq s.id si.storeId) = none := by
      rw [List.find?_eq_none]
      intro x hx
      simp [h x hx]
    simp [stockStep, hfind]
  · rfl

/-- Witness for C10: the AVAILABLE entry with string id "123" is dropped from
a run whose only cached store has the number id 123. -/
theorem stock_lookup_strict_witness :
    stockStep [storeNum123] ([], []) si123 = ([], []) :=
  (stock_lookup_strict [storeNum123] ([], []) si123 (by decide)).1

/-- Counterexample to C8 as stated: the icon code `toString` is not a key of
the static table, yet the scan emits the inherited `Object.prototype.toString`
function — not the raw code string verbatim — because the table lookup is a
plain property read that falls through to `Object.prototype`. -/
theorem parseServices_proto_cex :
    parseServices rawToString = [ServiceVal.protoFn "toString"]
    ∧ ServiceVal.protoFn "toString" ≠ ServiceVal.str "toString" := by
  exact ⟨by decide, by decide⟩

/-- C8 amended: the scan emits exactly one value per truthy icon code, in
scan order: the table label for a table key; the raw code string verbatim for
a code that is neither a table key nor an `Object.prototype` property name;
but for a code that names an inherited `Object.prototype` function the
emitted value is that inherited function, not the raw code. No code is
dropped and every emitted value is truthy — never empty, never falsy. -/
theorem parseServices_total (r : RawStore) :
    parseServices r = (presentCodes r).map serviceFor
    ∧ (∀ c n : String, lookupIcon c = some (ServiceVal.str n) →
        serviceFor c = ServiceVal.str n)
    ∧ (∀ c : String, lookupIcon c = none → serviceFor c = ServiceVal.str c)
    ∧ (∀ c : String, (icon_cypher.find? fun p => p.fst = c) = none →
        c ∈ protoFnKeys → serviceFor c = ServiceVal.protoFn c)
    ∧ (∀ v : ServiceVal, v ∈ parseServices r → truthyService v = true) := by
  have hmap : parseServices r = (presentCodes r).map serviceFor := by
    unfold parseServices presentCodes
    rw [List.map_filterMap]
    congr 1
    funext o
    cases o with
    | none => rfl
    | some c =>
      by_cases hc : c = ""
      · simp [hc]
      · simp [hc]
  refine ⟨hmap, ?_, ?_, ?_, ?_⟩
  · intro c n h
    have hne := lookupIcon_str_ne_empty c n h
    simp [serviceFor, h, truthyService, hne]
  · intro c h
    simp [serviceFor, h]
  · intro c hf hp
    simp [serviceFor, lookupIcon, hf, hp, truthyService]
  · intro v hv
    rw [hmap] at hv
    obtain ⟨c, hc, rfl⟩ := List.mem_map.mp hv
    have hcne : c ≠ "" := by
      unfold presentCodes at hc
      obtain ⟨o, _, ho⟩ := List.mem_filterMap.mp hc
      cases o with
      | none => simp at ho
      | some c2 =>
        by_cases h2 : c2 = ""
        · simp [h2] at ho
        · simp [h2] at ho
          rw [← ho]
          exact h2
    unfold serviceFor
    cases hl : lookupIcon c with
    | none => simp [truthyService, hcne]
    | some v0 =>
      show truthyService (if truthyService v0 = true then v0 else ServiceVal.str c) = true
      cases hv : truthyService v0 with
      | true =>
        rw [if_pos rfl]
        exact hv
      | false =>
        rw [if_neg (by simp)]
        simp [truthyService, hcne]

/-- Witness for the amended C8: an unmapped non-prototype code passes through
verbatim while the prototype-named code `toString` is emitted as the
inherited function. -/
theorem parseServices_total_witness :
    serviceFor "mystery" = ServiceVal.str "mystery"
    ∧ serviceFor "toString" = ServiceVal.protoFn "toString" :=
  ⟨(parseServices_total rawSample).2.2.1 "mystery" (by decide),
   (parseServices_total rawSample).2.2.2.1 "toString" (by decide) (by decide)⟩

/-- Counterexample to C7 as stated: a fully successful refresh whose record
carries the icon code `toString` returns a list whose services hold the
inherited function, but `JSON.stringify` writes that function as `null`, so
the subsequent load returns a different list. -/
theorem cache_roundtrip_cex :
    (fetchLidlStores storeEnvProto none).1 = Except.ok [transformStore rawToString]
    ∧ loadCachedStores (fetchLidlStores storeEnvProto none).2 ≠
        some [transformStore rawToString] := by
  exact ⟨by rfl, by decide⟩

/-- C7 amended: loading an absent cache file yields the distinguished absent
value (`none`), not an error; after any successful refresh a load returns
exactly the refreshed list passed through the JSON stringify/parse round
trip — which is the refreshed list itself whenever no service value is a
prototype-inherited one. -/
theorem cache_refresh_load_roundtrip :
    loadCachedStores (none : Option (List Store)) = none
    ∧ ∀ (env : StoreEnv) (file fileAfter : Option (List Store)) (stores : List Store),
        fetchLidlStores env file = (Except.ok stores, fileAfter) →
        loadCachedStores fileAfter = some (stores.map jsonRoundTripStore)
        ∧ ((∀ s ∈ stores, jsonRoundTripStore s = s) →
            loadCachedStores fileAfter = some stores) := by
  refine ⟨rfl, ?_⟩
  intro env file fileAfter stores h
  have hload : loadCachedStores fileAfter = some (stores.map jsonRoundTripStore) := by
    unfold fetchLidlStores at h
    by_cases hc : truthyOpt env.mapsHost = false ∨ truthyOpt env.mapsApiKey = false
    · simp [hc] at h
    · cases hf : env.fetchResult with
      | error e => simp [hc, hf] at h
      | ok resp =>
        by_cases ho : resp.ok = false
        · simp [hc, hf, ho] at h
        · cases hb : resp.body with
          | error m => simp [hc, hf, ho, hb] at h
          | ok raws =>
            simp [hc, hf, ho, hb] at h
            rw [← h.2, ← h.1]
            simp [loadCachedStores, List.map_map]
  refine ⟨hload, ?_⟩
  intro hfix
  rw [hload]
  have : stores.map jsonRoundTripStore = stores := by
    calc stores.map jsonRoundTripStore = stores.map id :=
          List.map_congr_left hfix
      _ = stores := List.map_id stores
  rw [this]

/-- Witness for the amended C7: a load after the concrete prototype-free
successful refresh returns exactly the transformed one-record list that the
refresh returned. -/
theorem cache_refresh_load_roundtrip_witness :
    loadCachedStores (some [transformStore rawSample]) = some [transformStore rawSample] :=
  (cache_refresh_load_roundtrip.2 storeEnvOk none (some [transformStore rawSample])
    [transformStore rawSample] (by rfl)).2 (by decide)

/-- C9: every store-directory refresh that ends in a failure — missing
configuration, a throwing fetch, a non-ok status, or a body that fails to
parse — leaves the persisted cache file exactly as it was; the file is only
written on the fully successful path. -/
theorem refresh_failure_preserves_cache (env : StoreEnv) (file : Option (List Store))
    (f : Failure) (h : (fetchLidlStores env file).1 = Except.error f) :
    (fetchLidlStores env file).2 = file := by
  unfold fetchLidlStores at h ⊢
  by_cases hc : truthyOpt env.mapsHost = false ∨ truthyOpt env.mapsApiKey = false
  · simp [hc]
  · cases hf : env.fetchResult with
    | error e => simp [hc, hf]
    | ok resp =>
      by_cases ho : resp.ok = false
      · simp [hc, hf, ho]
      · cases hb : resp.body with
        | error m => simp [hc, hf, ho, hb]
        | ok raws => simp [hc, hf, ho, hb] at h

/-- Witness for C9: the network-failure refresh leaves the prior one-record
cache file untouched. -/
theorem refresh_failure_preserves_cache_witness :
    (fetchLidlStores storeEnvFail (some [transformStore rawSample])).2 =
      some [transformStore rawSample] :=
  refresh_failure_preserves_cache storeEnvFail (some [transformStore rawSample])
    (Failure.exit 1) (by rfl)

/-- C6: whenever the resolver succeeds and the resolved variants list is
empty, the flow proceeds with exactly one synthetic variant whose identifier
fields both equal the base product identifier, which is exactly the identifier
the resolver extracted from the URL. -/
theorem empty_variants_synthetic (url : String) (penv : PageEnv) (r : ProductResult)
    (tr : BrowserTrace) (choice : String)
    (hres : fetchProductVariants url penv = (Except.ok (some r), tr))
    (hv : r.variants = []) :
    selectVariant r choice =
      some { erpNumber := some r.productId, articleId := some r.productId,
             fullTitle := r.fullTitle, productTitle := none }
    ∧ extractProductId url = some r.productId := by
  constructor
  · simp [selectVariant, hv]
  · unfold fetchProductVariants at hres
    cases hid : extractProductId url with
    | none => rw [hid] at hres; simp at hres
    | some pid =>
      rw [hid] at hres
      cases hg : penv.gotoResult with
      | error e => rw [hg] at hres; simp at hres
      | ok u =>
        rw [hg] at hres
        cases hv2 : penv.variantsEval with
        | error e => rw [hv2] at hres; simp at hres
        | ok vs =>
          rw [hv2] at hres
          cases ht : penv.titleEval with
          | error e => rw [ht] at hres; simp at hres
          | ok t =>
            rw [ht] at hres
            simp at hres
            rw [← hres.1]

/-- Witness for C6 at a concrete URL and an all-success page session with an
empty variants list. -/
theorem empty_variants_synthetic_witness :
    selectVariant prodNoVariants "x" =
      some { erpNumber := some "12345", articleId := some "12345",
             fullTitle := some "Sample product", productTitle := none }
    ∧ extractProductId "https://www.lidl.si/p12345" = some "12345" :=
  empty_variants_synthetic "https://www.lidl.si/p12345" penvAllOk prodNoVariants
    { launched := true, closed := true } "x" (by rfl) (by rfl)

/-- Counterexample to C3 as stated: a resolution call that launches the
browser and whose page navigation rejects returns with the error while the
browser has been launched but not closed — an exit path on which the browser
resource is not released (the source has no try/finally around lines
135-150). -/
theorem browser_left_open_cex :
    fetchProductVariants "https://www.lidl.si/p12345" penvGotoFail =
      (Except.error (JsError.error "net::ERR_NAME_NOT_RESOLVED"),
       { launched := true, closed := false }) := rfl

/-- C3 amended: the browser of a variant-resolution call is released before
the call returns only on the fully successful path; on every path where page
navigation or state extraction fails with an error, the error propagates out
of the call with the browser launched and not released. -/
theorem browser_release_paths (url : String) (penv : PageEnv) :
    (∀ (res : Option ProductResult) (tr : BrowserTrace),
        fetchProductVariants url penv = (Except.ok res, tr) → tr.closed = tr.launched)
    ∧ (∀ (e : JsError) (tr : BrowserTrace),
        fetchProductVariants url penv = (Except.error e, tr) →
          tr.launched = true ∧ tr.closed = false) := by
  unfold fetchProductVariants
  cases hid : extractProductId url with
  | none =>
    constructor
    · intro res tr h
      simp at h
      rw [← h.2]
    · intro e tr h
      simp at h
  | some pid =>
    cases hg : penv.gotoResult with
    | error e0 =>
      constructor
      · intro res tr h
        simp at h
      · intro e tr h
        simp at h
        rw [← h.2]
        exact ⟨rfl, rfl⟩
    | ok u =>
      cases hv2 : penv.variantsEval with
      | error e0 =>
        constructor
        · intro res tr h
          simp at h
        · intro e tr h
          simp at h
          rw [← h.2]
          exact ⟨rfl, rfl⟩
      | ok vs =>
        cases ht : penv.titleEval with
        | error e0 =>
          constructor
          · intro res tr h
            simp at h
          · intro e tr h
            simp at h
            rw [← h.2]
            exact ⟨rfl, rfl⟩
        | ok t =>
          constructor
          · intro res tr h
            simp at h
            rw [← h.2]
          · intro e tr h
            simp at h

/-- Witness for the amended C3 on the all-success session: the returned trace
has the browser closed. -/
theorem browser_release_paths_witness :
    ({ launched := true, closed := true } : BrowserTrace).closed =
      ({ launched := true, closed := true } : BrowserTrace).launched :=
  (browser_release_paths "https://www.lidl.si/p12345" penvAllOk).1
    (some prodNoVariants) { launched := true, closed := true } (by rfl)

/-- Counterexample to C2 as stated: on a concrete run that reaches the stock
check and receives a non-ok stock response, the raised error escapes the menu
iteration itself — the outcome is the propagating exception, not a normal
return to the menu loop, so the loop is not re-entered and the rejection is
unhandled at top level. -/
theorem stock_http_failure_cex :
    mainMenuStep "1" envStockFail =
      Except.error (Failure.jsErr (JsError.error "Failed to fetch product availability")) := rfl

/-- C2 amended: on every run that reaches the stock-check phase, a non-ok
stock-availability response raises an error that propagates uncaught through
the stock check, the product-search flow, and the menu iteration: no caller
confines the failure to the stock-check phase and the menu loop does not
continue. -/
theorem stock_http_failure_escapes (env : FlowEnv) (pid : Option String)
    (stores : List Store)
    (hpre : flowPrelude env = Except.ok (Sum.inr (pid, stores)))
    (hok : env.stockOk = false) :
    productSearchFlow env =
      Except.error (Failure.jsErr (JsError.error "Failed to fetch product availability"))
    ∧ mainMenuStep "1" env =
      Except.error (Failure.jsErr (JsError.error "Failed to fetch product availability")) := by
  have hflow : productSearchFlow env =
      Except.error (Failure.jsErr (JsError.error "Failed to fetch product availability")) := by
    unfold productSearchFlow
    rw [hpre]
    simp [findInStockStores, fetchProductAvailability, hok]
  refine ⟨hflow, ?_⟩
  unfold mainMenuStep
  rw [if_pos rfl, hflow]

/-- Witness for the amended C2 at the concrete stock-failure run. -/
theorem stock_http_failure_escapes_witness :
    productSearchFlow envStockFail =
      Except.error (Failure.jsErr (JsError.error "Failed to fetch product availability")) :=
  (stock_http_failure_escapes envStockFail (some "12345") [storeNum123]
    (by rfl) (by rfl)).1

/-- C1: evaluation of the flow at the failing input — cache file absent and a
validated non-empty 4-digit postcode — shows the postal-code filter runs on
the null store list before the absent-cache refresh check at line 201, so the
run faults with a TypeError instead of refreshing and filtering. -/
theorem absent_cache_postcode_faults :
    productSearchFlow envAbsentCachePostcode =
      Except.error (Failure.jsErr
        (JsError.typeError "Cannot read properties of null (reading filter)")) := rfl
